import Mathlib

/-
Shallow embedding of the TasitSDK action layer
(src/packages/tasit-action/src/TasitAction.js, current generation, and
src/unnamed/part_000, the earlier generation of the same module).

Modelling conventions:
- JS single-threaded cooperative scheduling: each method call is embedded as an
  atomic state transformer run to completion; await points inside a method are
  modelled by reading the provider state passed as a parameter.
- The provider (transport) is modelled by its receipt table; the side effects a
  method performs on the transport (provider.on / provider.removeListener /
  getTransactionReceipt) are recorded as an explicit trace of ProviderOp.
- A JS callback that may throw is a function returning Except String Unit,
  carrying the thrown error message.
- JS async-function call semantics: calling an async function never throws
  synchronously; a throw inside the body rejects the returned promise.  The
  source declares TransactionSubscription.on and #addListener as async arrow
  functions, and #addListener is invoked from `on` WITHOUT await, so an error
  thrown inside #addListener rejects a promise nobody holds (an unhandled
  rejection).  OnOutcome makes these delivery channels explicit.
-/

structure Receipt where
  confirmations : Nat
deriving DecidableEq, Repr

structure MessageData where
  confirmations : Nat
deriving DecidableEq, Repr

/-- Message object handed to a confirmation callback: { data: { confirmations } }. -/
structure Message where
  data : MessageData
deriving DecidableEq, Repr

/-- Caller-supplied callback; Except.error carries the message of a thrown error. -/
def Callback : Type := Message → Except String Unit

/-- Which listener function was pushed by #addListener: the already-mined branch
pushes a function that re-queries the receipt on each "block" firing; the other
branch pushes emitterFunction directly, keyed on the transaction hash. -/
inductive ListenerKind
  | blockRequery
  | direct
deriving DecidableEq, Repr

structure Listener where
  eventName : String
  kind : ListenerKind
  callback : Callback

/-- Side effects performed on the shared provider (transport). -/
inductive ProviderOp
  | on (key : String)
  | removeListener (key : String)
  | getReceipt (h : String)
deriving DecidableEq, Repr

/-- Transport model: getTransactionReceipt lookup table. -/
structure Provider where
  receipts : String → Option Receipt

/-- Observable state of a TransactionSubscription.  The source class also holds
the immutable references #txPromise, #provider and #tx; those are passed to the
embedded methods as parameters.  errorListener records whether a "failed"
handler is registered; deliveredErrors records the errors handed to it.
timersStarted counts setTimeout timers armed by #addListener (the source never
stores or clears the timer handle). -/
structure TransactionSubscription where
  listeners : List Listener
  errorListener : Bool
  deliveredErrors : List String
  timersStarted : Nat
  timeout : Nat

/-- State produced by the constructor: field initializers #listeners = [],
no #errorListener, #timeout = 2000. -/
def TransactionSubscription.fresh : TransactionSubscription :=
  { listeners := [], errorListener := false, deliveredErrors := [],
    timersStarted := 0, timeout := 2000 }

/-- hasListener = () => this.#listeners.length > 0 -/
def TransactionSubscription.hasListener (s : TransactionSubscription) : Bool :=
  s.listeners.length > 0

/-- removeListener: if hasListener, pop the last listener and deregister it from
the provider; otherwise do nothing. -/
def TransactionSubscription.removeListener (s : TransactionSubscription) :
    TransactionSubscription × List ProviderOp :=
  if s.hasListener then
    match s.listeners.getLast? with
    | some l =>
        ({ s with listeners := s.listeners.dropLast },
         [ProviderOp.removeListener l.eventName])
    | none => (s, [])
  else (s, [])

/-- removeAllListeners = () => this.removeListener() -/
def TransactionSubscription.removeAllListeners (s : TransactionSubscription) :
    TransactionSubscription × List ProviderOp :=
  s.removeListener

/-- off = () => this.removeListener() -/
def TransactionSubscription.off (s : TransactionSubscription) :
    TransactionSubscription × List ProviderOp :=
  s.removeListener

/-- unsubscribe = () => this.removeListener() -/
def TransactionSubscription.unsubscribe (s : TransactionSubscription) :
    TransactionSubscription × List ProviderOp :=
  s.removeListener

/-- addErrorListener: stores the callback as #errorListener (modelled as the
registration flag; deliveries are recorded in deliveredErrors). -/
def TransactionSubscription.addErrorListener (s : TransactionSubscription) :
    TransactionSubscription :=
  { s with errorListener := true }

/-- emitErrorEvent: invoke #errorListener with the error if one is registered,
otherwise drop the error. -/
def TransactionSubscription.emitErrorEvent (s : TransactionSubscription)
    (e : String) : TransactionSubscription :=
  if s.errorListener then { s with deliveredErrors := s.deliveredErrors ++ [e] }
  else s

/-- emitterFunction of #addListener: destructure the receipt (a null receipt
would throw outside the try block, surfacing as an unhandled rejection, the
second component), build the message, run the callback inside try/catch, and on
a throw redirect the wrapped error to #emitErrorEvent. -/
def emitterFunction (s : TransactionSubscription) (callback : Callback)
    (receipt : Option Receipt) : TransactionSubscription × Option String :=
  match receipt with
  | none => (s, some "TypeError: cannot destructure null receipt")
  | some r =>
      let message : Message := { data := { confirmations := r.confirmations } }
      match callback message with
      | Except.ok _ => (s, none)
      | Except.error error =>
          (s.emitErrorEvent ("Callback function with error: " ++ error), none)

/-- addListener (async #addListener, run atomically): reject with
AlreadyListening when a listener is active; otherwise resolve the tx (txHash),
query the receipt, push a listener keyed on "block" (re-querying) when a
receipt already exists and on the tx hash (direct) otherwise, register it with
the provider, and arm the timeout timer. -/
def TransactionSubscription.addListener (s : TransactionSubscription)
    (p : Provider) (txHash : String) (callback : Callback) :
    TransactionSubscription × List ProviderOp × Except String Unit :=
  if s.hasListener then
    (s, [], Except.error "Subscription already listening")
  else
    let receipt := p.receipts txHash
    let alreadyMined := receipt.isSome
    let l : Listener :=
      if alreadyMined then
        { eventName := "block", kind := ListenerKind.blockRequery,
          callback := callback }
      else
        { eventName := txHash, kind := ListenerKind.direct,
          callback := callback }
    let s1 := { s with listeners := s.listeners ++ [l],
                       timersStarted := s.timersStarted + 1 }
    (s1, [ProviderOp.getReceipt txHash, ProviderOp.on l.eventName],
     Except.ok ())

/-- Delivery channel of the outcome of calling `on`: a synchronous throw to the
caller, a rejection of the promise `on` returns, a rejection of the un-awaited
internal #addListener promise (unhandled), or normal resolution. -/
inductive OnOutcome
  | syncThrow (e : String)
  | promiseRejected (e : String)
  | resolvedWithUnhandled (e : String)
  | resolved
deriving DecidableEq, Repr

/-- on = async (trigger, callback): validate the trigger and the callback
(throws inside the async body reject the promise `on` returns); "failed"
registers the error listener; "confirmation" calls #addListener WITHOUT await,
so a rejection of #addListener is an unhandled rejection while the promise of
`on` itself resolves. -/
def TransactionSubscription.on (s : TransactionSubscription) (p : Provider)
    (txHash : String) (trigger : String) (callback : Option Callback) :
    TransactionSubscription × List ProviderOp × OnOutcome :=
  if ¬ (trigger = "confirmation" ∨ trigger = "failed") then
    (s, [], OnOutcome.promiseRejected
      "Invalid listener trigger, use: [confirmation,failed]")
  else
    match callback with
    | none => (s, [], OnOutcome.promiseRejected "Cannot listening without a function")
    | some cb =>
        if trigger = "failed" then
          (s.addErrorListener, [], OnOutcome.resolved)
        else
          match s.addListener p txHash cb with
          | (s1, ops, Except.ok _) => (s1, ops, OnOutcome.resolved)
          | (s1, ops, Except.error e) =>
              (s1, ops, OnOutcome.resolvedWithUnhandled e)

/-- Expiry of a timer armed by #addListener: this.removeListener() followed
unconditionally by #emitErrorEvent with the timeout error. -/
def fireTimeout (s : TransactionSubscription) :
    TransactionSubscription × List ProviderOp :=
  let (s1, ops) := s.removeListener
  (s1.emitErrorEvent "Listener removed after reached timeout", ops)

/-- Provider delivering an event to a registered listener function: the direct
listener is emitterFunction applied to the receipt supplied by the provider;
the blockRequery listener re-queries getTransactionReceipt for the tx hash on
each firing and feeds the result to emitterFunction. -/
def fireListener (s : TransactionSubscription) (p : Provider) (txHash : String)
    (l : Listener) (receiptArg : Option Receipt) :
    TransactionSubscription × List ProviderOp × Option String :=
  match l.kind with
  | ListenerKind.direct =>
      let (s1, unh) := emitterFunction s l.callback receiptArg
      (s1, [], unh)
  | ListenerKind.blockRequery =>
      let r := p.receipts txHash
      let (s1, unh) := emitterFunction s l.callback r
      (s1, [ProviderOp.getReceipt txHash], unh)

/- ===== Contract (dynamic binder) side ===== -/

/-- ABI descriptor entry; constant is the truthiness of f.constant (old
generation flag), stateMutability the new generation flag. -/
structure AbiEntry where
  type : String
  name : String
  constant : Bool
  stateMutability : String
deriving DecidableEq, Repr

/-- Wallet object; ethersType models the _ethersType marker field. -/
structure Wallet where
  ethersType : String
deriving DecidableEq, Repr

/-- isAddress: string matching the pattern 0x followed by exactly 40 hex digits. -/
def Utils.isHexDigit (c : Char) : Bool :=
  c.isDigit || (decide ('A' ≤ c) && decide (c ≤ 'F'))
    || (decide ('a' ≤ c) && decide (c ≤ 'f'))

def Utils.isAddress (address : String) : Bool :=
  match address.toList with
  | '0' :: 'x' :: rest => rest.length == 40 && rest.all Utils.isHexDigit
  | _ => false

/-- isABI: abi && Array.isArray(abi).  A null / non-array argument is modelled
as none, an array as some list. -/
def Utils.isABI (abi : Option (List AbiEntry)) : Bool :=
  abi.isSome

/-- isEthersJsSigner: signer && signer._ethersType === "Signer". -/
def Utils.isEthersJsSigner (signer : Option Wallet) : Bool :=
  match signer with
  | none => false
  | some w => w.ethersType == "Signer"

inductive MethodKind
  | read
  | write
deriving DecidableEq, Repr

/-- Current generation classification (TasitAction.js):
isWrite = f.stateMutability !== "view". -/
def Contract.classify (f : AbiEntry) : MethodKind :=
  if f.stateMutability != "view" then MethodKind.write else MethodKind.read

/-- Earlier generation classification (src/unnamed/part_000):
isWrite = !f.constant. -/
def OldContract.classify (f : AbiEntry) : MethodKind :=
  if !f.constant then MethodKind.write else MethodKind.read

/-- addFunctionsToContract: a method per ABI entry of type "function",
classified read or write. -/
def Contract.addFunctionsToContract (abi : List AbiEntry) :
    List (String × MethodKind) :=
  ((abi.filter fun j => j.type == "function").map
    fun f => (f.name, Contract.classify f))

/-- Observable state of a bound Contract; signer is the signer the inner
ethers.Contract was built with (the wallet when one was connected). -/
structure ContractState where
  address : String
  abi : List AbiEntry
  signer : Option Wallet
  methods : List (String × MethodKind)

/-- initializeContract: validate address and ABI, then the optional wallet,
then build the inner contract and attach the methods. -/
def Contract.initializeContract (address : String)
    (abi : Option (List AbiEntry)) (wallet : Option Wallet) :
    Except String ContractState :=
  if !(Utils.isAddress address) || !(Utils.isABI abi) then
    Except.error "Cannot create a Contract without a address and ABI"
  else if wallet.isSome && !(Utils.isEthersJsSigner wallet) then
    Except.error "Cannot set an invalid wallet to a Contract"
  else
    Except.ok { address := address, abi := abi.getD [], signer := wallet,
                methods := Contract.addFunctionsToContract (abi.getD []) }

/-- Contract constructor: builds the default provider (object construction,
no transport operation) and runs initializeContract; the trace component
records the transport operations performed during construction (none). -/
def Contract.construct (address : String) (abi : Option (List AbiEntry))
    (wallet : Option Wallet) : Except String ContractState × List ProviderOp :=
  (Contract.initializeContract address abi wallet, [])

/-- Result of invoking a bound method.  threw is a synchronous exception;
value is the promise of the read path resolving to the decoded call result;
subscription is the TransactionSubscription the write path returns
synchronously. -/
inductive InvokeResult (V : Type)
  | threw (msg : String)
  | value (v : V)
  | subscription (sub : TransactionSubscription)

/-- Invoking a bound method: the read method awaits the underlying contract
call and returns its value without any signer check; the write method checks
isEthersJsSigner on the contract signer synchronously, then wraps the pending
call in a new TransactionSubscription, returned synchronously. -/
def Contract.invokeMethod {V : Type} (c : ContractState) (kind : MethodKind)
    (underlying : V) : InvokeResult V :=
  match kind with
  | MethodKind.read => InvokeResult.value underlying
  | MethodKind.write =>
      if !(Utils.isEthersJsSigner c.signer) then
        InvokeResult.threw "Cannot write data to a Contract without a wallet"
      else
        InvokeResult.subscription TransactionSubscription.fresh

/- ===== Concrete instances used by counterexamples and witnesses ===== -/

/-- Callback that returns normally. -/
def cbOk : Callback := fun _ => Except.ok ()

/-- Callback that throws with message "boom". -/
def cbBoom : Callback := fun _ => Except.error "boom"

/-- Provider with no receipts at all. -/
def emptyProvider : Provider := { receipts := fun _ => none }

/-- Provider holding a receipt with 3 confirmations for hash "0xabc". -/
def minedProvider : Provider :=
  { receipts := fun h => if h = "0xabc" then some { confirmations := 3 } else none }

/-- Subscription with one active direct confirmation listener. -/
def sListening : TransactionSubscription :=
  { listeners := [{ eventName := "0xabc", kind := ListenerKind.direct,
                    callback := cbOk }],
    errorListener := false, deliveredErrors := [], timersStarted := 1,
    timeout := 2000 }

/-- Subscription with one active listener and a registered failure handler. -/
def sListeningWithHandler : TransactionSubscription :=
  { listeners := [{ eventName := "0xabc", kind := ListenerKind.direct,
                    callback := cbOk }],
    errorListener := true, deliveredErrors := [], timersStarted := 1,
    timeout := 2000 }

/-- Valid 40-hex-digit address. -/
def validAddress : String := "0x0000000000000000000000000000000000000000"

/-- Function entry with constant = true and stateMutability = "pure": a pure
function as normalized in real ABIs. -/
def pureEntry : AbiEntry :=
  { type := "function", name := "calc", constant := true,
    stateMutability := "pure" }

/-- Non-view function entry (a write). -/
def writeEntry : AbiEntry :=
  { type := "function", name := "setValue", constant := false,
    stateMutability := "nonpayable" }

/-- View function entry (a read). -/
def readEntry : AbiEntry :=
  { type := "function", name := "getValue", constant := true,
    stateMutability := "view" }

/-- Wallet carrying the Signer marker. -/
def signerWallet : Wallet := { ethersType := "Signer" }

/-- Wallet object missing the Signer marker. -/
def notSignerWallet : Wallet := { ethersType := "NotASigner" }

/-- Bound contract with no signer. -/
def cNoSigner : ContractState :=
  { address := validAddress, abi := [readEntry, writeEntry], signer := none,
    methods := Contract.addFunctionsToContract [readEntry, writeEntry] }

/-- Bound contract with a valid signer. -/
def cWithSigner : ContractState :=
  { address := validAddress, abi := [readEntry, writeEntry],
    signer := some signerWallet,
    methods := Contract.addFunctionsToContract [readEntry, writeEntry] }

/-- Subscription whose listener was already retired but whose failure handler
is registered; its timer is still pending. -/
def sRetiredWithHandler : TransactionSubscription :=
  { listeners := [], errorListener := true, deliveredErrors := [],
    timersStarted := 1, timeout := 2000 }

/- ===== Theorems ===== -/

/-- C1 counterexample: on a subscription that already holds an active
confirmation listener, calling on("confirmation", cb) does NOT raise
AlreadyListening synchronously: the outcome is a rejection of the un-awaited
internal #addListener promise (an unhandled asynchronous rejection), the
promise returned by `on` itself resolving. -/
theorem C1_counterexample :
    (sListening.on emptyProvider "0xabc" "confirmation" (some cbOk)).2.2
      = OnOutcome.resolvedWithUnhandled "Subscription already listening" := by
  rfl

/-- C1 (amended): while a confirmation listener is active, on("confirmation",
cb) raises AlreadyListening as an asynchronous rejection of the un-awaited
internal registration promise (never synchronously), leaves the state
unchanged, and after the listener is removed a new on("confirmation", cb)
registration succeeds and attaches a listener. -/
theorem C1_on_already_listening_rejects_asynchronously
    (s : TransactionSubscription) (p q : Provider) (h h2 : String)
    (cb cb2 : Callback) (l : Listener) (hl : s.listeners = [l]) :
    (s.on p h "confirmation" (some cb)).2.2
        = OnOutcome.resolvedWithUnhandled "Subscription already listening"
  ∧ (s.on p h "confirmation" (some cb)).1 = s
  ∧ ((s.removeListener).1.on q h2 "confirmation" (some cb2)).2.2
        = OnOutcome.resolved
  ∧ ((s.removeListener).1.on q h2 "confirmation" (some cb2)).1.hasListener
        = true := by
  have hhas : s.hasListener = true := by
    simp [TransactionSubscription.hasListener, hl]
  have hrem : (s.removeListener).1 = { s with listeners := [] } := by
    simp [TransactionSubscription.removeListener, hhas, hl]
  refine ⟨?_, ?_, ?_, ?_⟩
  · simp [TransactionSubscription.on, TransactionSubscription.addListener, hhas]
  · simp [TransactionSubscription.on, TransactionSubscription.addListener, hhas]
  · rw [hrem]
    simp [TransactionSubscription.on, TransactionSubscription.addListener,
      TransactionSubscription.hasListener]
  · rw [hrem]
    simp [TransactionSubscription.on, TransactionSubscription.addListener,
      TransactionSubscription.hasListener]

/-- C1 witness: the amended theorem applied to the concrete listening
subscription. -/
theorem C1_amended_witness :
    (sListening.on emptyProvider "0xabc" "confirmation" (some cbOk)).2.2
        = OnOutcome.resolvedWithUnhandled "Subscription already listening"
  ∧ (sListening.on emptyProvider "0xabc" "confirmation" (some cbOk)).1
        = sListening
  ∧ ((sListening.removeListener).1.on emptyProvider "0xabc" "confirmation"
        (some cbOk)).2.2 = OnOutcome.resolved
  ∧ ((sListening.removeListener).1.on emptyProvider "0xabc" "confirmation"
        (some cbOk)).1.hasListener = true :=
  C1_on_already_listening_rejects_asynchronously sListening emptyProvider
    emptyProvider "0xabc" "0xabc" cbOk cbOk _ rfl

/-- C2: for every descriptor entry classified as write, invoking without a
signer throws MissingSigner synchronously; invoking with a signer returns a
fresh TransactionSubscription synchronously, whose hasListener() is false and
stays false under failure-handler registration, removal, and any `on` call
whose trigger is not "confirmation". -/
theorem C2_write_method (f : AbiEntry) (c : ContractState) (v : Int)
    (hf : Contract.classify f = MethodKind.write) :
    (Utils.isEthersJsSigner c.signer = false →
        Contract.invokeMethod c (Contract.classify f) v
          = InvokeResult.threw "Cannot write data to a Contract without a wallet")
  ∧ (Utils.isEthersJsSigner c.signer = true →
        Contract.invokeMethod c (Contract.classify f) v
          = InvokeResult.subscription TransactionSubscription.fresh)
  ∧ TransactionSubscription.fresh.hasListener = false
  ∧ TransactionSubscription.fresh.addErrorListener.hasListener = false
  ∧ ((TransactionSubscription.fresh.removeListener).1).hasListener = false
  ∧ (∀ (p : Provider) (h : String) (trigger : String) (cb : Option Callback),
        trigger ≠ "confirmation" →
        ((TransactionSubscription.fresh.on p h trigger cb).1).hasListener
          = false) := by
  rw [hf]
  refine ⟨fun hs => ?_, fun hs => ?_, rfl, rfl, rfl, ?_⟩
  · simp [Contract.invokeMethod, hs]
  · simp [Contract.invokeMethod, hs]
  · intro p h trigger cb htr
    by_cases hfail : trigger = "failed"
    · subst hfail
      cases cb <;>
        simp [TransactionSubscription.on, TransactionSubscription.fresh,
          TransactionSubscription.addErrorListener,
          TransactionSubscription.hasListener]
    · have hcond : ¬ (trigger = "confirmation" ∨ trigger = "failed") := by
        simp [htr, hfail]
      cases cb <;>
        simp [TransactionSubscription.on, hcond, TransactionSubscription.fresh,
          TransactionSubscription.hasListener]

/-- C2 witness: the theorem applied to the concrete write entry, once on the
contract without a signer and once on the contract holding one. -/
theorem C2_write_method_witness :
    Contract.invokeMethod cNoSigner (Contract.classify writeEntry) (0 : Int)
      = InvokeResult.threw "Cannot write data to a Contract without a wallet"
  ∧ Contract.invokeMethod cWithSigner (Contract.classify writeEntry) (0 : Int)
      = InvokeResult.subscription TransactionSubscription.fresh
  ∧ TransactionSubscription.fresh.hasListener = false :=
  ⟨(C2_write_method writeEntry cNoSigner 0 rfl).1 rfl,
   (C2_write_method writeEntry cWithSigner 0 rfl).2.1 rfl,
   (C2_write_method writeEntry cNoSigner 0 rfl).2.2.1⟩

/-- C3: for every descriptor entry classified as read, invocation returns the
decoded result value of the underlying call for every contract state (in
particular one with no signer: no signer check is made) and never produces a
subscription or a throw. -/
theorem C3_read_method {V : Type} (f : AbiEntry) (c : ContractState) (v : V)
    (hf : Contract.classify f = MethodKind.read) :
    Contract.invokeMethod c (Contract.classify f) v = InvokeResult.value v := by
  rw [hf]
  rfl

/-- C3 witness: the read entry invoked on the signerless contract returns the
underlying value. -/
theorem C3_read_method_witness :
    Contract.invokeMethod cNoSigner (Contract.classify readEntry) (7 : Int)
      = InvokeResult.value 7 :=
  C3_read_method readEntry cNoSigner 7 rfl

/-- C4: registering a confirmation listener when the transport already holds a
receipt for the hash attaches the listener keyed on the generic "block" event
with the re-querying listener function; when no receipt exists it attaches the
listener keyed directly on the transaction hash; and firing a block-keyed
listener re-queries the receipt from the provider. -/
theorem C4_listener_keying (s : TransactionSubscription) (p : Provider)
    (h : String) (cb : Callback) (hs : s.hasListener = false) :
    ((p.receipts h).isSome = true →
        (s.addListener p h cb).2.1
            = [ProviderOp.getReceipt h, ProviderOp.on "block"]
      ∧ ((s.addListener p h cb).1).listeners
            = [{ eventName := "block", kind := ListenerKind.blockRequery,
                 callback := cb }])
  ∧ ((p.receipts h) = none →
        (s.addListener p h cb).2.1
            = [ProviderOp.getReceipt h, ProviderOp.on h]
      ∧ ((s.addListener p h cb).1).listeners
            = [{ eventName := h, kind := ListenerKind.direct,
                 callback := cb }])
  ∧ (∀ (l : Listener) (q : Provider) (rarg : Option Receipt),
        l.kind = ListenerKind.blockRequery →
        (fireListener s q h l rarg).2.1 = [ProviderOp.getReceipt h]) := by
  have hnil : s.listeners = [] := by
    simpa [TransactionSubscription.hasListener] using hs
  refine ⟨fun hm => ?_, fun hm => ?_, ?_⟩
  · constructor <;>
      simp [TransactionSubscription.addListener, hs, hm, hnil]
  · constructor <;>
      simp [TransactionSubscription.addListener, hs, hm, hnil]
  · intro l q rarg hk
    rcases l with ⟨en, k, lcb⟩
    cases k
    · simp [fireListener]
    · cases hk

/-- C5: when the timeout fires on a subscription with an active confirmation
listener, the listener is deregistered from the transport, the failure handler
(when registered) receives the Timeout error, hasListener() becomes false, and
the timeout duration is the fixed 2000 ms. -/
theorem C5_timeout_retires_listener (s : TransactionSubscription) (l : Listener)
    (hl : s.listeners = [l]) :
    ((fireTimeout s).1).hasListener = false
  ∧ (fireTimeout s).2 = [ProviderOp.removeListener l.eventName]
  ∧ (s.errorListener = true →
      ((fireTimeout s).1).deliveredErrors
        = s.deliveredErrors ++ ["Listener removed after reached timeout"])
  ∧ TransactionSubscription.fresh.timeout = 2000 := by
  have hhas : s.hasListener = true := by
    simp [TransactionSubscription.hasListener, hl]
  refine ⟨?_, ?_, fun he => ?_, rfl⟩
  · simp [fireTimeout, TransactionSubscription.removeListener, hhas, hl,
      TransactionSubscription.emitErrorEvent, TransactionSubscription.hasListener]
    split <;> simp
  · simp [fireTimeout, TransactionSubscription.removeListener, hhas, hl]
  · simp [fireTimeout, TransactionSubscription.removeListener, hhas, hl,
      TransactionSubscription.emitErrorEvent, he]

/-- C5 witness: the theorem applied to the concrete listening subscription with
a registered failure handler. -/
theorem C5_timeout_witness :
    ((fireTimeout sListeningWithHandler).1).hasListener = false
  ∧ ((fireTimeout sListeningWithHandler).1).deliveredErrors
      = sListeningWithHandler.deliveredErrors
          ++ ["Listener removed after reached timeout"] :=
  ⟨(C5_timeout_retires_listener sListeningWithHandler _ rfl).1,
   (C5_timeout_retires_listener sListeningWithHandler _ rfl).2.2.1 rfl⟩

/-- C6: an error thrown by the caller's confirmation callback is caught (never
an unhandled rejection, for every callback and receipt), wrapped as
"Callback function with error: ..." and delivered to the failure handler when
one is registered, and dropped leaving the state unchanged when none is. -/
theorem C6_callback_error_routed (s : TransactionSubscription) (cb : Callback)
    (r : Receipt) (e : String)
    (hc : cb { data := { confirmations := r.confirmations } }
            = Except.error e) :
    (emitterFunction s cb (some r)).2 = none
  ∧ (s.errorListener = true →
      ((emitterFunction s cb (some r)).1).deliveredErrors
        = s.deliveredErrors ++ ["Callback function with error: " ++ e])
  ∧ (s.errorListener = false → (emitterFunction s cb (some r)).1 = s)
  ∧ (∀ (cb2 : Callback) (r2 : Receipt),
      (emitterFunction s cb2 (some r2)).2 = none) := by
  refine ⟨?_, fun he => ?_, fun he => ?_, ?_⟩
  · simp [emitterFunction, hc, TransactionSubscription.emitErrorEvent]
  · simp [emitterFunction, hc, TransactionSubscription.emitErrorEvent, he]
  · simp [emitterFunction, hc, TransactionSubscription.emitErrorEvent, he]
  · intro cb2 r2
    simp only [emitterFunction]
    cases cb2 { data := { confirmations := r2.confirmations } } <;> simp

/-- C6 witness: a throwing callback on a subscription with a registered failure
handler, and the same callback with no handler registered. -/
theorem C6_callback_error_witness :
    (emitterFunction sListeningWithHandler cbBoom (some { confirmations := 3 })).2
        = none
  ∧ ((emitterFunction sListeningWithHandler cbBoom
        (some { confirmations := 3 })).1).deliveredErrors
        = ["Callback function with error: boom"]
  ∧ (emitterFunction sListening cbBoom (some { confirmations := 3 })).1
        = sListening :=
  ⟨(C6_callback_error_routed sListeningWithHandler cbBoom
      { confirmations := 3 } "boom" rfl).1,
   (C6_callback_error_routed sListeningWithHandler cbBoom
      { confirmations := 3 } "boom" rfl).2.1 rfl,
   (C6_callback_error_routed sListening cbBoom
      { confirmations := 3 } "boom" rfl).2.2.1 rfl⟩

/-- C7: on a subscription satisfying the multiplicity-one invariant
(at most one listener), registering a failure handler never touches the
listener sequence; a successful confirmation registration adds exactly one
entry and preserves the invariant (and so does an unsuccessful one);
removeListener preserves the invariant, is a no-op when no listener is
attached, deregisters the listener from the transport when one is, and is
idempotent; off, removeAllListeners and unsubscribe coincide with
removeListener. -/
theorem C7_multiplicity_invariant (s : TransactionSubscription)
    (hinv : s.listeners.length ≤ 1) :
    (s.addErrorListener).listeners = s.listeners
  ∧ (∀ (p : Provider) (h : String) (cb : Callback),
        s.hasListener = false →
        ((s.addListener p h cb).1).listeners.length = s.listeners.length + 1)
  ∧ (∀ (p : Provider) (h : String) (cb : Callback),
        ((s.addListener p h cb).1).listeners.length ≤ 1)
  ∧ ((s.removeListener).1).listeners.length ≤ 1
  ∧ (s.hasListener = false → s.removeListener = (s, []))
  ∧ (s.hasListener = true →
        ∃ key, (s.removeListener).2 = [ProviderOp.removeListener key])
  ∧ ((s.removeListener).1).removeListener = ((s.removeListener).1, [])
  ∧ s.off = s.removeListener
  ∧ s.removeAllListeners = s.removeListener
  ∧ s.unsubscribe = s.removeListener := by
  have hshape : s.listeners = [] ∨ ∃ l, s.listeners = [l] := by
    match hls : s.listeners with
    | [] => exact Or.inl rfl
    | [l] => exact Or.inr ⟨l, rfl⟩
    | l1 :: l2 :: rest =>
        rw [hls] at hinv
        simp at hinv
  rcases hshape with hnil | ⟨l, hone⟩
  · have hhas : s.hasListener = false := by
      simp [TransactionSubscription.hasListener, hnil]
    refine ⟨?_, fun p h cb _ => ?_, fun p h cb => ?_, ?_, fun _ => ?_,
      fun hc => ?_, ?_, rfl, rfl, rfl⟩
    · simp [TransactionSubscription.addErrorListener]
    · simp [TransactionSubscription.addListener, hhas]
    · simp [TransactionSubscription.addListener, hhas, hnil]
    · simp [TransactionSubscription.removeListener, hhas, hinv]
    · simp [TransactionSubscription.removeListener, hhas]
    · rw [hhas] at hc
      cases hc
    · simp [TransactionSubscription.removeListener, hhas]
  · have hhas : s.hasListener = true := by
      simp [TransactionSubscription.hasListener, hone]
    refine ⟨?_, fun p h cb hc => ?_, fun p h cb => ?_, ?_, fun hc => ?_,
      fun _ => ?_, ?_, rfl, rfl, rfl⟩
    · simp [TransactionSubscription.addErrorListener]
    · rw [hhas] at hc
      cases hc
    · simp [TransactionSubscription.addListener, hhas, hone]
    · simp [TransactionSubscription.removeListener, hhas, hone]
    · rw [hhas] at hc
      cases hc
    · exact ⟨l.eventName,
        by simp [TransactionSubscription.removeListener, hhas, hone]⟩
    · simp [TransactionSubscription.removeListener, hhas, hone,
        TransactionSubscription.hasListener]

/-- C7 witness: the theorem applied to the concrete listening subscription and
to the fresh subscription. -/
theorem C7_multiplicity_witness :
    (sListening.addErrorListener).listeners = sListening.listeners
  ∧ ((sListening.removeListener).1).removeListener
      = ((sListening.removeListener).1, [])
  ∧ TransactionSubscription.fresh.removeListener
      = (TransactionSubscription.fresh, []) :=
  ⟨(C7_multiplicity_invariant sListening (by simp [sListening])).1,
   (C7_multiplicity_invariant sListening (by simp [sListening])).2.2.2.2.2.2.1,
   (C7_multiplicity_invariant TransactionSubscription.fresh
      (by simp [TransactionSubscription.fresh])).2.2.2.2.1 rfl⟩

/-- C8 counterexample: with a valid address and a valid descriptor but a wallet
object lacking the Signer marker, construction still fails — so failure is not
restricted to inputs where the address fails isAddress or the descriptor fails
isABI. -/
theorem C8_counterexample :
    Utils.isAddress validAddress = true
  ∧ Utils.isABI (some []) = true
  ∧ Contract.initializeContract validAddress (some []) (some notSignerWallet)
      = Except.error "Cannot set an invalid wallet to a Contract" := by
  refine ⟨by decide, rfl, rfl⟩

/-- C8 (amended): construction fails exactly when the address fails isAddress,
the descriptor fails isABI, or a provided wallet fails isEthersJsSigner; the
address/descriptor validation runs first, and construction performs no
transport operation at all (hence any failure precedes transport
interaction). -/
theorem C8_construction_validation (address : String)
    (abi : Option (List AbiEntry)) (wallet : Option Wallet) :
    ((∃ e, (Contract.construct address abi wallet).1 = Except.error e) ↔
      (Utils.isAddress address = false ∨ Utils.isABI abi = false
        ∨ (wallet.isSome = true ∧ Utils.isEthersJsSigner wallet = false)))
  ∧ ((Utils.isAddress address = false ∨ Utils.isABI abi = false) →
      (Contract.construct address abi wallet).1
        = Except.error "Cannot create a Contract without a address and ABI")
  ∧ (Contract.construct address abi wallet).2 = [] := by
  refine ⟨?_, fun hbad => ?_, rfl⟩
  · cases ha : Utils.isAddress address <;>
    cases hb : Utils.isABI abi <;>
    cases hw1 : wallet.isSome <;>
    cases hw2 : Utils.isEthersJsSigner wallet <;>
      simp [Contract.construct, Contract.initializeContract, ha, hb, hw1, hw2]
  · rcases hbad with hbad | hbad <;>
      simp [Contract.construct, Contract.initializeContract, hbad]

/-- C9 counterexample: a pure function entry (constant = true, stateMutability
= "pure") is bound as a read method by the old generation and as a write
method by the new generation — the two generations do not classify every
function entry identically. -/
theorem C9_counterexample :
    pureEntry.type = "function"
  ∧ OldContract.classify pureEntry = MethodKind.read
  ∧ Contract.classify pureEntry = MethodKind.write :=
  ⟨rfl, rfl, rfl⟩

/-- C9 (amended): each generation binds an entry as read exactly when its own
flag indicates view (old: constant; new: stateMutability = "view"), and the
two generations agree on an entry exactly when those two flags coincide — in
particular they disagree on entries such as pure functions, where constant is
true but stateMutability is not "view". -/
theorem C9_classification (f : AbiEntry) :
    (OldContract.classify f = MethodKind.read ↔ f.constant = true)
  ∧ (Contract.classify f = MethodKind.read
        ↔ (f.stateMutability == "view") = true)
  ∧ (OldContract.classify f = Contract.classify f
        ↔ f.constant = (f.stateMutability == "view")) := by
  cases hc : f.constant <;> cases hm : f.stateMutability == "view" <;>
    simp [OldContract.classify, Contract.classify, hc, hm, bne]

/-- C10: the timeout timer armed by a confirmation registration is never
cancelled — no deregistration path (removeListener, off, unsubscribe,
removeAllListeners) nor confirmation delivery (emitterFunction) touches the
armed-timer count — and when the timer fires, the failure handler (when
registered) receives the Timeout error unconditionally, even when the
listener was already retired (in which case no transport deregistration
happens and the listener sequence is untouched). -/
theorem C10_timer_never_cancelled (s : TransactionSubscription) :
    ((s.removeListener).1).timersStarted = s.timersStarted
  ∧ ((s.off).1).timersStarted = s.timersStarted
  ∧ ((s.unsubscribe).1).timersStarted = s.timersStarted
  ∧ ((s.removeAllListeners).1).timersStarted = s.timersStarted
  ∧ (∀ (cb : Callback) (r : Option Receipt),
        ((emitterFunction s cb r).1).timersStarted = s.timersStarted)
  ∧ (s.errorListener = true →
        ((fireTimeout s).1).deliveredErrors
          = s.deliveredErrors ++ ["Listener removed after reached timeout"])
  ∧ (s.hasListener = false →
        (fireTimeout s).2 = []
      ∧ ((fireTimeout s).1).listeners = s.listeners) := by
  have hrm : ((s.removeListener).1).timersStarted = s.timersStarted := by
    simp only [TransactionSubscription.removeListener]
    split
    · split <;> rfl
    · rfl
  have hrmdel :
      ((s.removeListener).1).deliveredErrors = s.deliveredErrors := by
    simp only [TransactionSubscription.removeListener]
    split
    · split <;> rfl
    · rfl
  have hrmerr :
      ((s.removeListener).1).errorListener = s.errorListener := by
    simp only [TransactionSubscription.removeListener]
    split
    · split <;> rfl
    · rfl
  refine ⟨hrm, hrm, hrm, hrm, ?_, fun he => ?_, fun hn => ?_⟩
  · intro cb r
    rcases r with _ | r
    · rfl
    · simp only [emitterFunction]
      cases cb { data := { confirmations := r.confirmations } }
      · simp only [TransactionSubscription.emitErrorEvent]
        split <;> rfl
      · rfl
  · simp [fireTimeout, TransactionSubscription.emitErrorEvent, hrmerr, he,
      hrmdel]
  · constructor
    · simp [fireTimeout, TransactionSubscription.removeListener, hn]
    · simp [fireTimeout, TransactionSubscription.removeListener, hn,
        TransactionSubscription.emitErrorEvent]
      split <;> rfl

/-- C4 witness: registration against a provider that already holds the receipt
keys the listener on "block"; against an empty provider it keys the listener
on the transaction hash. -/
theorem C4_listener_keying_witness :
    (TransactionSubscription.fresh.addListener minedProvider "0xabc" cbOk).2.1
        = [ProviderOp.getReceipt "0xabc", ProviderOp.on "block"]
  ∧ (TransactionSubscription.fresh.addListener emptyProvider "0xdef" cbOk).2.1
        = [ProviderOp.getReceipt "0xdef", ProviderOp.on "0xdef"] :=
  ⟨((C4_listener_keying TransactionSubscription.fresh minedProvider "0xabc"
      cbOk rfl).1 rfl).1,
   ((C4_listener_keying TransactionSubscription.fresh emptyProvider "0xdef"
      cbOk rfl).2.1 rfl).1⟩

/-- C8 witness: the amended validation theorem applied to the spec scenario
address "not-hex". -/
theorem C8_validation_witness :
    (Contract.construct "not-hex" (some []) none).1
        = Except.error "Cannot create a Contract without a address and ABI"
  ∧ (Contract.construct "not-hex" (some []) none).2 = [] :=
  ⟨(C8_construction_validation "not-hex" (some []) none).2.1 (Or.inl rfl),
   (C8_construction_validation "not-hex" (some []) none).2.2⟩

/-- C10 witness: on a subscription whose listener was already retired but whose
failure handler is registered, removal does not touch the armed-timer count and
the firing timer still delivers the Timeout error with no transport
deregistration. -/
theorem C10_timer_witness :
    ((sRetiredWithHandler.removeListener).1).timersStarted
        = sRetiredWithHandler.timersStarted
  ∧ ((fireTimeout sRetiredWithHandler).1).deliveredErrors
        = sRetiredWithHandler.deliveredErrors
            ++ ["Listener removed after reached timeout"]
  ∧ (fireTimeout sRetiredWithHandler).2 = [] :=
  ⟨(C10_timer_never_cancelled sRetiredWithHandler).1,
   (C10_timer_never_cancelled sRetiredWithHandler).2.2.2.2.2.1 rfl,
   ((C10_timer_never_cancelled sRetiredWithHandler).2.2.2.2.2.2 rfl).1⟩
